import Mathlib

/-!
Shallow embedding of the PTY session core of this repository
(`src-tauri/src/pty.rs`, wired up in `src-tauri/src/lib.rs`).

Modelling choices:
* The registry `PtyManager { instances: Mutex<HashMap<TerminalId, PtyInstance>> }`
  is embedded as an association list `Registry := List (TerminalId × PtyInstance)`
  with HashMap semantics: lookup finds the first binding, insert replaces the
  binding for an existing key, remove erases every binding for the key.  The
  mutex is acquired by code that never panics while holding it, so lock
  acquisition is modelled as always succeeding.
* OS-level effects (openpty, spawn_command, take_writer, try_clone_reader,
  write_all, flush, resize, kill, read) are fallible syscalls; each operation
  takes an environment record of oracle results describing what the OS did.
* A `PtyInstance` keeps the observable OS state that the handles reach: the
  child-process token, the log of bytes written (plus flush count) on the
  writer handle, and the current PTY geometry behind the master handle.
* Rust `u16` geometry values flow through the code without arithmetic, so they
  are modelled as `Nat`; Rust byte slices are `List Nat` of byte values.
-/

/-- Session identifiers are externally supplied strings (`type TerminalId = String`). -/
abbrev TerminalId := String

/-- PTY geometry as passed to `openpty` and `resize` (`portable_pty::PtySize`). -/
structure PtySize where
  rows : Nat
  cols : Nat
  pixel_width : Nat
  pixel_height : Nat
deriving DecidableEq, Repr

/-- Observable state of a writer handle: bytes written so far and number of flushes. -/
structure WriterState where
  written : List Nat
  flushes : Nat
deriving DecidableEq, Repr

/-- One live session (`struct PtyInstance { child, writer, master }`):
the child-process token, the writer-handle state, and the geometry held by the
master control handle. -/
structure PtyInstance where
  child : Nat
  writer : WriterState
  master : PtySize
deriving DecidableEq, Repr

/-- The terminal registry: the `HashMap<TerminalId, PtyInstance>` inside
`PtyManager`, embedded as an association list. -/
abbrev Registry := List (TerminalId × PtyInstance)

/-- `HashMap::get` / `get_mut`: first binding for the key. -/
def rlookup : Registry → TerminalId → Option PtyInstance
  | [], _ => none
  | (k, v) :: rest, id => if k = id then some v else rlookup rest id

/-- `HashMap::insert`: replace the binding for an existing key, else append. -/
def rinsert : Registry → TerminalId → PtyInstance → Registry
  | [], id, v => [(id, v)]
  | (k, w) :: rest, id, v =>
    if k = id then (id, v) :: rest else (k, w) :: rinsert rest id v

/-- `HashMap::remove`: erase every binding for the key (a `HashMap` has at most
one, so on the abstract map this is exactly removal). -/
def rerase : Registry → TerminalId → Registry
  | [], _ => []
  | (k, w) :: rest, id =>
    if k = id then rerase rest id else (k, w) :: rerase rest id

/-- Mutation through `get_mut`: update the value bound to the key in place. -/
def rupdate : Registry → TerminalId → (PtyInstance → PtyInstance) → Registry
  | [], _, _ => []
  | (k, w) :: rest, id, f =>
    if k = id then (k, f w) :: rest else (k, w) :: rupdate rest id f

/-- The key set of the registry (as the list of keys, in order). -/
def rkeys (r : Registry) : List TerminalId := r.map Prod.fst

/-- UTF-8 encoding of one Unicode scalar value, used to embed Rust's
`str::as_bytes` on the strings the host sends to `pty_write`. -/
def charUtf8 (c : Char) : List Nat :=
  let n := c.toNat
  if n < 0x80 then [n]
  else if n < 0x800 then [0xC0 + n / 0x40, 0x80 + n % 0x40]
  else if n < 0x10000 then
    [0xE0 + n / 0x1000, 0x80 + (n / 0x40) % 0x40, 0x80 + n % 0x40]
  else
    [0xF0 + n / 0x40000, 0x80 + (n / 0x1000) % 0x40, 0x80 + (n / 0x40) % 0x40,
      0x80 + n % 0x40]

/-- `data.as_bytes()`: the UTF-8 bytes of a string. -/
def strBytes (s : String) : List Nat := s.data.flatMap charUtf8

/-- Oracle results for the two syscalls made by `pty_write`:
`write_all` and `flush` (`none` = success, `some e` = the error's message). -/
structure WriteEnv where
  writeErr : Option String
  flushErr : Option String
deriving DecidableEq, Repr

/-- Result of a registry command: the returned `Result<(), String>` and the
registry (with the per-session OS state it reaches) afterwards. -/
structure CmdOutcome where
  result : Except String Unit
  registry : Registry
deriving Repr

/-- `pty_write`: look the session up (`ok_or("Terminal not found")`), write the
string's bytes to its writer handle with `write_all`, then `flush`.  A failed
`write_all` is modelled as writing nothing. -/
def pty_write (st : Registry) (id : TerminalId) (data : String) (env : WriteEnv) :
    CmdOutcome :=
  match rlookup st id with
  | none => ⟨Except.error "Terminal not found", st⟩
  | some _ =>
    match env.writeErr with
    | some e => ⟨Except.error e, st⟩
    | none =>
      let st1 := rupdate st id (fun i =>
        { i with writer := { i.writer with written := i.writer.written ++ strBytes data } })
      match env.flushErr with
      | some e => ⟨Except.error e, st1⟩
      | none =>
        ⟨Except.ok (), rupdate st1 id (fun i =>
          { i with writer := { i.writer with flushes := i.writer.flushes + 1 } })⟩

/-- Oracle result for the `resize` syscall on the master handle. -/
structure ResizeEnv where
  resizeErr : Option String
deriving DecidableEq, Repr

/-- `pty_resize`: look the session up (`ok_or("Terminal not found")`), then
`master.resize(PtySize { rows, cols, pixel_width: 0, pixel_height: 0 })`. -/
def pty_resize (st : Registry) (id : TerminalId) (rows cols : Nat) (env : ResizeEnv) :
    CmdOutcome :=
  match rlookup st id with
  | none => ⟨Except.error "Terminal not found", st⟩
  | some _ =>
    match env.resizeErr with
    | some e => ⟨Except.error e, st⟩
    | none =>
      ⟨Except.ok (),
        rupdate st id (fun i =>
          { i with master := ⟨rows, cols, 0, 0⟩ })⟩

/-- Oracle result for a `child.kill()` request (its outcome is discarded by the
source: `let _ = instance.child.kill()`). -/
structure KillEnv where
  killErr : Option String
deriving DecidableEq, Repr

/-- Result of `pty_kill` / `kill_all`: the returned value, the registry
afterwards, and the child tokens whose termination was requested. -/
structure KillOutcome where
  result : Except String Unit
  registry : Registry
  killed : List Nat
deriving Repr

/-- `pty_kill`: `instances.remove(&id)`; if an instance was present, request
`child.kill()` best-effort (the oracle's outcome `env.killErr` is ignored);
always return `Ok(())`. -/
def pty_kill (st : Registry) (id : TerminalId) (env : KillEnv) : KillOutcome :=
  match rlookup st id with
  | some inst => ⟨Except.ok (), rerase st id, [inst.child]⟩
  | none => ⟨Except.ok (), st, []⟩

/-- Result of `kill_all`: the registry afterwards and the children killed. -/
structure KillAllOutcome where
  registry : Registry
  killed : List Nat
deriving Repr

/-- `kill_all`: drain the map and request `child.kill()` for every instance,
each outcome ignored. -/
def kill_all (st : Registry) : KillAllOutcome :=
  ⟨[], st.map (fun p => p.2.child)⟩

/-- Shell selection in `pty_spawn`:
`if cfg!(windows) { env COMSPEC or "powershell.exe" } else { env SHELL or "/bin/bash" }`.
Environment variables are passed in as oracle values (`none` = unset/invalid). -/
def shell_path (isWindows : Bool) (comspecVar shellVar : Option String) : String :=
  if isWindows then comspecVar.getD "powershell.exe"
  else shellVar.getD "/bin/bash"

/-- The `format!("pty:data:{}", id)` event name of a session. -/
def dataEventName (id : TerminalId) : String := "pty:data:" ++ id

/-- The `format!("pty:exit:{}", id)` event name of a session. -/
def exitEventName (id : TerminalId) : String := "pty:exit:" ++ id

/-- Oracle results for the fallible steps of `pty_spawn` and for the OS
identity of the handles it obtains. -/
structure SpawnEnv where
  openptyErr : Option String
  spawnErr : Option String
  writerErr : Option String
  readerErr : Option String
  childHandle : Nat
  readerHandle : Nat
  isWindows : Bool
  comspecVar : Option String
  shellVar : Option String
deriving DecidableEq, Repr

/-- The reader thread spawned at the end of `pty_spawn`: the event names it
captured and the cloned reader handle moved into it. -/
structure StartedLoop where
  dataEvent : String
  exitEvent : String
  reader : Nat
deriving DecidableEq, Repr

/-- Result of `pty_spawn`: the returned `Result`, the registry afterwards, the
command handed to `spawn_command` (program and working directory; `none` when
`openpty` already failed so no command was built), the reader thread started
(if any), and child tokens whose termination was requested (`pty_spawn` never
requests any). -/
structure SpawnOutcome where
  result : Except String Unit
  registry : Registry
  spawnedCmd : Option (String × String)
  startedLoop : Option StartedLoop
  killed : List Nat
deriving Repr

/-- `pty_spawn`: `openpty(PtySize { rows, cols, 0, 0 })`, pick the shell,
build the command with the working directory, `spawn_command`, `take_writer`,
`try_clone_reader`, insert the instance under `id` (replacing any existing
binding), then spawn the reader thread for `pty:data:<id>` / `pty:exit:<id>`. -/
def pty_spawn (st : Registry) (id cwd : String) (rows cols : Nat) (env : SpawnEnv) :
    SpawnOutcome :=
  match env.openptyErr with
  | some e => ⟨Except.error e, st, none, none, []⟩
  | none =>
    let sp := shell_path env.isWindows env.comspecVar env.shellVar
    let cmd := (sp, cwd)
    match env.spawnErr with
    | some e => ⟨Except.error e, st, some cmd, none, []⟩
    | none =>
      match env.writerErr with
      | some e => ⟨Except.error e, st, some cmd, none, []⟩
      | none =>
        match env.readerErr with
        | some e => ⟨Except.error e, st, some cmd, none, []⟩
        | none =>
          let inst : PtyInstance :=
            { child := env.childHandle
              writer := { written := [], flushes := 0 }
              master := ⟨rows, cols, 0, 0⟩ }
          ⟨Except.ok (), rinsert st id inst, some cmd,
            some ⟨dataEventName id, exitEventName id, env.readerHandle⟩, []⟩

/-- Is a byte a UTF-8 continuation byte (`0x80..=0xBF`)? -/
def isCont (b : Nat) : Bool := 0x80 ≤ b && b ≤ 0xBF

/-- Valid range of the first continuation byte after a three-byte leader. -/
def cont3first (b c : Nat) : Bool :=
  if b = 0xE0 then 0xA0 ≤ c && c ≤ 0xBF
  else if b = 0xED then 0x80 ≤ c && c ≤ 0x9F
  else isCont c

/-- Valid range of the first continuation byte after a four-byte leader. -/
def cont4first (b c : Nat) : Bool :=
  if b = 0xF0 then 0x90 ≤ c && c ≤ 0xBF
  else if b = 0xF4 then 0x80 ≤ c && c ≤ 0x8F
  else isCont c

/-- Core of `String::from_utf8_lossy`: decode a byte list to Unicode scalar
values, replacing each maximal invalid subpart with U+FFFD (the WHATWG
substitution Rust documents).  The fuel argument (instantiated with the list
length, enough since every step consumes at least one byte) makes the
recursion structural. -/
def utf8DecodeGo : Nat → List Nat → List Nat
  | 0, _ => []
  | _, [] => []
  | fuel + 1, b :: rest =>
    if b < 0x80 then b :: utf8DecodeGo fuel rest
    else if 0xC2 ≤ b && b ≤ 0xDF then
      match rest with
      | [] => [0xFFFD]
      | c1 :: rest1 =>
        if isCont c1 then ((b - 0xC0) * 0x40 + (c1 - 0x80)) :: utf8DecodeGo fuel rest1
        else 0xFFFD :: utf8DecodeGo fuel rest
    else if 0xE0 ≤ b && b ≤ 0xEF then
      match rest with
      | [] => [0xFFFD]
      | c1 :: rest1 =>
        if cont3first b c1 then
          match rest1 with
          | [] => [0xFFFD]
          | c2 :: rest2 =>
            if isCont c2 then
              ((b - 0xE0) * 0x1000 + (c1 - 0x80) * 0x40 + (c2 - 0x80)) ::
                utf8DecodeGo fuel rest2
            else 0xFFFD :: utf8DecodeGo fuel rest1
        else 0xFFFD :: utf8DecodeGo fuel rest
    else if 0xF0 ≤ b && b ≤ 0xF4 then
      match rest with
      | [] => [0xFFFD]
      | c1 :: rest1 =>
        if cont4first b c1 then
          match rest1 with
          | [] => [0xFFFD]
          | c2 :: rest2 =>
            if isCont c2 then
              match rest2 with
              | [] => [0xFFFD]
              | c3 :: rest3 =>
                if isCont c3 then
                  ((b - 0xF0) * 0x40000 + (c1 - 0x80) * 0x1000 +
                    (c2 - 0x80) * 0x40 + (c3 - 0x80)) :: utf8DecodeGo fuel rest3
                else 0xFFFD :: utf8DecodeGo fuel rest2
            else 0xFFFD :: utf8DecodeGo fuel rest1
        else 0xFFFD :: utf8DecodeGo fuel rest
    else 0xFFFD :: utf8DecodeGo fuel rest

/-- `String::from_utf8_lossy(&buf[..n]).to_string()`: total lossy decoding of a
byte chunk to a string. -/
def utf8Lossy (bs : List Nat) : String :=
  String.mk ((utf8DecodeGo bs.length bs).map Char.ofNat)

/-- The buffer size of the reader loop: `let mut buf = [0u8; 4096]`. -/
def CHUNK_SIZE : Nat := 4096

/-- One OS answer to a `read` call on the cloned reader handle: either some
bytes are available (a prefix of at most the buffer size is delivered) or the
syscall fails. -/
inductive OsRead where
  | avail (bytes : List Nat)
  | readErr
deriving DecidableEq, Repr

/-- `reader.read(&mut buf)` with a buffer of `bufSize` bytes: delivers at most
`bufSize` of the available bytes, or the error. -/
def readOnce (bufSize : Nat) : OsRead → Except Unit (List Nat)
  | OsRead.avail bs => Except.ok (bs.take bufSize)
  | OsRead.readErr => Except.error ()

/-- An event emitted through the app handle (`app.emit`), addressed by event
name; a data event carries the `PtyDataPayload { data }` string. -/
inductive Event where
  | data (name : String) (payload : String)
  | exit (name : String)
deriving DecidableEq, Repr

/-- The `loop { match reader.read(&mut buf) { ... } }` body: the data events it
emits, and whether it has reached a `break` (`Ok(0)` or `Err(_)`).  A trace
that ends before a terminating read leaves the loop blocked (`false`). -/
def readerLoopBody (dataEvent : String) : List OsRead → List Event × Bool
  | [] => ([], false)
  | r :: rest =>
    match readOnce CHUNK_SIZE r with
    | Except.error _ => ([], true)
    | Except.ok bytes =>
      if bytes.length = 0 then ([], true)
      else
        let text := utf8Lossy bytes
        let out := readerLoopBody dataEvent rest
        (Event.data dataEvent text :: out.1, out.2)

/-- Everything a session's reader loop has emitted after consuming the given
trace of OS read results, and whether it has exited.  The final
`app.emit(&exit_event, ())` runs exactly when the loop has broken. -/
structure LoopRun where
  events : List Event
  exited : Bool
deriving DecidableEq, Repr

/-- The reader thread of session `id` run against a trace of OS read results:
the loop body followed, once the loop breaks, by the exit-event emit. -/
def sessionReader (id : TerminalId) (reads : List OsRead) : LoopRun :=
  let out := readerLoopBody (dataEventName id) reads
  ⟨out.1 ++ (if out.2 then [Event.exit (exitEventName id)] else []), out.2⟩

/-! Helper lemmas about the registry operations and the reader loop. -/

theorem rkeys_rupdate (st : Registry) (id : TerminalId) (f : PtyInstance → PtyInstance) :
    rkeys (rupdate st id f) = rkeys st := by
  induction st with
  | nil => rfl
  | cons p rest ih =>
    obtain ⟨k, w⟩ := p
    by_cases h : k = id <;> simp [rupdate, rkeys, h] <;> simpa [rkeys] using ih

theorem rupdate_rupdate (st : Registry) (id : TerminalId)
    (f g : PtyInstance → PtyInstance) :
    rupdate (rupdate st id f) id g = rupdate st id (fun i => g (f i)) := by
  induction st with
  | nil => rfl
  | cons p rest ih =>
    obtain ⟨k, w⟩ := p
    by_cases h : k = id <;> simp [rupdate, h, ih]

theorem rlookup_rerase_self (st : Registry) (id : TerminalId) :
    rlookup (rerase st id) id = none := by
  induction st with
  | nil => rfl
  | cons p rest ih =>
    obtain ⟨k, w⟩ := p
    by_cases h : k = id <;> simp [rerase, rlookup, h, ih]

theorem rlookup_rerase_ne (st : Registry) (id id2 : TerminalId) (h : id2 ≠ id) :
    rlookup (rerase st id) id2 = rlookup st id2 := by
  induction st with
  | nil => rfl
  | cons p rest ih =>
    obtain ⟨k, w⟩ := p
    have hid : ¬ (id = id2) := fun hh => h hh.symm
    by_cases hk : k = id
    · simp [rerase, rlookup, hk, hid, ih]
    · by_cases hk2 : k = id2 <;> simp [rerase, rlookup, hk, hk2, h, ih]

theorem rlookup_rinsert_self (st : Registry) (id : TerminalId) (v : PtyInstance) :
    rlookup (rinsert st id v) id = some v := by
  induction st with
  | nil => simp [rinsert, rlookup]
  | cons p rest ih =>
    obtain ⟨k, w⟩ := p
    by_cases h : k = id <;> simp [rinsert, rlookup, h, ih]

theorem rlookup_rinsert_ne (st : Registry) (id id2 : TerminalId) (v : PtyInstance)
    (h : id2 ≠ id) :
    rlookup (rinsert st id v) id2 = rlookup st id2 := by
  induction st with
  | nil => simp [rinsert, rlookup, h.symm]
  | cons p rest ih =>
    obtain ⟨k, w⟩ := p
    have hid : ¬ (id = id2) := fun hh => h hh.symm
    by_cases hk : k = id
    · simp [rinsert, rlookup, hk, hid]
    · by_cases hk2 : k = id2 <;> simp [rinsert, rlookup, hk, hk2, h, ih]

theorem readerLoopBody_data (ev : String) (reads : List OsRead) :
    ∀ e ∈ (readerLoopBody ev reads).1, ∃ s, e = Event.data ev s := by
  induction reads with
  | nil => simp [readerLoopBody]
  | cons r rest ih =>
    cases r with
    | readErr => simp [readerLoopBody, readOnce]
    | avail bs =>
      by_cases h : (bs.take CHUNK_SIZE).length = 0
      · simp [readerLoopBody, readOnce, h]
      · simp only [readerLoopBody, readOnce, if_neg h, List.mem_cons]
        rintro e (rfl | he)
        · exact ⟨_, rfl⟩
        · exact ih e he

theorem readerLoopBody_map (ev : String) (chunks : List (List Nat)) (t : OsRead)
    (hne : ∀ c ∈ chunks, c ≠ [])
    (hlen : ∀ c ∈ chunks, c.length ≤ CHUNK_SIZE)
    (ht : t = OsRead.avail [] ∨ t = OsRead.readErr) :
    readerLoopBody ev (chunks.map OsRead.avail ++ [t]) =
      (chunks.map (fun c => Event.data ev (utf8Lossy c)), true) := by
  induction chunks with
  | nil =>
    rcases ht with h | h <;> subst h <;> simp [readerLoopBody, readOnce]
  | cons c cs ih =>
    have hc : c ≠ [] := hne c (by simp)
    have hl : c.length ≤ CHUNK_SIZE := hlen c (by simp)
    have htake : c.take CHUNK_SIZE = c := List.take_of_length_le hl
    have hlen0 : ¬ (c.take CHUNK_SIZE).length = 0 := by
      rw [htake]
      simpa [List.length_eq_zero] using hc
    have ihx := ih (fun d hd => hne d (by simp [hd])) (fun d hd => hlen d (by simp [hd]))
    simp [readerLoopBody, readOnce, hlen0, htake, ihx, hc]

/-! The claims. -/

/-- Claim C1: the session reader loop repeatedly reads up to 4096 bytes from
the cloned reader handle; on a read of N>0 bytes it decodes them lossily
(total, never failing) and emits exactly one data event with the decoded text
to the event name derived from the session identifier; on a zero-byte read or
a read error it exits the loop.  First conjunct: a trace of nonempty chunks
followed by end-of-stream or an error yields exactly one data event per chunk,
in order, then the exit event.  Second conjunct: of an available chunk only the
first 4096 bytes are read and carried by the next data event. -/
theorem c1_reader_loop (id : TerminalId) (chunks : List (List Nat)) (t : OsRead)
    (bs : List Nat) (rest : List OsRead)
    (hne : ∀ c ∈ chunks, c ≠ [])
    (hlen : ∀ c ∈ chunks, c.length ≤ CHUNK_SIZE)
    (ht : t = OsRead.avail [] ∨ t = OsRead.readErr)
    (hbs : bs.take CHUNK_SIZE ≠ []) :
    sessionReader id (chunks.map OsRead.avail ++ [t]) =
      ⟨chunks.map (fun c => Event.data (dataEventName id) (utf8Lossy c)) ++
        [Event.exit (exitEventName id)], true⟩ ∧
    (sessionReader id (OsRead.avail bs :: rest)).events.head? =
      some (Event.data (dataEventName id) (utf8Lossy (bs.take CHUNK_SIZE))) := by
  constructor
  · have hb := readerLoopBody_map (dataEventName id) chunks t hne hlen ht
    simp [sessionReader, hb]
  · have hb1 : bs ≠ [] := by intro hb; simp [hb] at hbs
    have hb2 : ¬ (CHUNK_SIZE = 0) := by decide
    simp [sessionReader, readerLoopBody, readOnce, hb1, hb2]

/-- Witness for C1 at a concrete trace: chunk "hi", then end-of-stream. -/
theorem c1_reader_loop_witness :
    sessionReader "t" [OsRead.avail [104, 105], OsRead.avail []] =
      ⟨[Event.data (dataEventName "t") (utf8Lossy [104, 105]),
        Event.exit (exitEventName "t")], true⟩ ∧
    (sessionReader "t" [OsRead.avail [104, 105]]).events.head? =
      some (Event.data (dataEventName "t") (utf8Lossy ([104, 105].take CHUNK_SIZE))) := by
  have h := c1_reader_loop "t" [[104, 105]] (OsRead.avail []) [104, 105] []
    (by decide) (by decide) (Or.inl rfl) (by decide)
  simpa using h

/-- Claim C2: once a session's reader loop has exited (zero-byte read or read
error), its emitted events are some data events followed by exactly one exit
event for that session; the exit event is last, so no data event for the
session follows it. -/
theorem c2_exit_event_last (id : TerminalId) (reads : List OsRead)
    (h : (sessionReader id reads).exited = true) :
    ∃ ds, (∀ e ∈ ds, ∃ s, e = Event.data (dataEventName id) s) ∧
      (sessionReader id reads).events = ds ++ [Event.exit (exitEventName id)] ∧
      (sessionReader id reads).events.count (Event.exit (exitEventName id)) = 1 := by
  have h2 : (readerLoopBody (dataEventName id) reads).2 = true := by
    simpa [sessionReader] using h
  refine ⟨(readerLoopBody (dataEventName id) reads).1,
    readerLoopBody_data (dataEventName id) reads, ?_, ?_⟩
  · simp [sessionReader, h2]
  · have hnotin : Event.exit (exitEventName id) ∉
        (readerLoopBody (dataEventName id) reads).1 := by
      intro hmem
      obtain ⟨s, hs⟩ := readerLoopBody_data (dataEventName id) reads _ hmem
      exact Event.noConfusion hs
    simp [sessionReader, h2, List.count_append, List.count_eq_zero.2 hnotin]

/-- Witness for C2 at a concrete trace: a data chunk, then a read error. -/
theorem c2_exit_event_last_witness :
    ∃ ds, (∀ e ∈ ds, ∃ s, e = Event.data (dataEventName "t") s) ∧
      (sessionReader "t" [OsRead.avail [104], OsRead.readErr]).events =
        ds ++ [Event.exit (exitEventName "t")] ∧
      (sessionReader "t" [OsRead.avail [104], OsRead.readErr]).events.count
        (Event.exit (exitEventName "t")) = 1 :=
  c2_exit_event_last "t" [OsRead.avail [104], OsRead.readErr] (by decide)

/-- Claim C3: a `pty_spawn` that fails at any step (openpty, spawn_command,
take_writer, try_clone_reader) returns that error, inserts nothing into the
registry (it is exactly the registry before the call), and starts no reader
loop. -/
theorem c3_spawn_failure_no_entry (st : Registry) (id cwd : String)
    (rows cols : Nat) (env : SpawnEnv) (e : String)
    (h : (pty_spawn st id cwd rows cols env).result = Except.error e) :
    (pty_spawn st id cwd rows cols env).registry = st ∧
    (pty_spawn st id cwd rows cols env).startedLoop = none := by
  cases ho : env.openptyErr with
  | some e0 => simp [pty_spawn, ho]
  | none =>
    cases hs : env.spawnErr with
    | some e0 => simp [pty_spawn, ho, hs]
    | none =>
      cases hw : env.writerErr with
      | some e0 => simp [pty_spawn, ho, hs, hw]
      | none =>
        cases hr : env.readerErr with
        | some e0 => simp [pty_spawn, ho, hs, hw, hr]
        | none => simp [pty_spawn, ho, hs, hw, hr] at h

/-- Witness for C3: a spawn whose pseudo-terminal allocation fails leaves the
registry (here one live session) untouched and starts no loop. -/
theorem c3_spawn_failure_no_entry_witness :
    (pty_spawn [("x", ⟨7, ⟨[], 0⟩, ⟨1, 1, 0, 0⟩⟩)] "y" "/tmp" 24 80
        ⟨some "boom", none, none, none, 0, 0, false, none, none⟩).registry =
      [("x", ⟨7, ⟨[], 0⟩, ⟨1, 1, 0, 0⟩⟩)] ∧
    (pty_spawn [("x", ⟨7, ⟨[], 0⟩, ⟨1, 1, 0, 0⟩⟩)] "y" "/tmp" 24 80
        ⟨some "boom", none, none, none, 0, 0, false, none, none⟩).startedLoop = none :=
  c3_spawn_failure_no_entry [("x", ⟨7, ⟨[], 0⟩, ⟨1, 1, 0, 0⟩⟩)] "y" "/tmp" 24 80
    ⟨some "boom", none, none, none, 0, 0, false, none, none⟩ "boom" rfl

/-- Claim C4: `pty_write` on an identifier absent from the registry fails with
the NotFound error ("Terminal not found") and leaves the registry unchanged;
on a present identifier, when both syscalls succeed, it appends the string's
bytes to that session's writer handle, flushes it once, and returns ok. -/
theorem c4_write_notfound_or_writes (st : Registry) (id : TerminalId)
    (data : String) (env : WriteEnv) :
    (rlookup st id = none →
      pty_write st id data env = ⟨Except.error "Terminal not found", st⟩) ∧
    (rlookup st id ≠ none → env.writeErr = none → env.flushErr = none →
      pty_write st id data env =
        ⟨Except.ok (), rupdate st id (fun i =>
          { i with writer := ⟨i.writer.written ++ strBytes data, i.writer.flushes + 1⟩ })⟩) := by
  constructor
  · intro h
    simp [pty_write, h]
  · intro h hw hf
    cases hl : rlookup st id with
    | none => exact absurd hl h
    | some inst =>
      simp [pty_write, hl, hw, hf, rupdate_rupdate]

/-- Witness for C4: write to a missing session and to a live one. -/
theorem c4_write_notfound_or_writes_witness :
    pty_write [] "x" "hi" ⟨none, none⟩ = ⟨Except.error "Terminal not found", []⟩ ∧
    pty_write [("x", ⟨1, ⟨[], 0⟩, ⟨2, 3, 0, 0⟩⟩)] "x" "hi" ⟨none, none⟩ =
      ⟨Except.ok (), rupdate [("x", ⟨1, ⟨[], 0⟩, ⟨2, 3, 0, 0⟩⟩)] "x" (fun i =>
        { i with writer := ⟨i.writer.written ++ strBytes "hi", i.writer.flushes + 1⟩ })⟩ :=
  ⟨(c4_write_notfound_or_writes [] "x" "hi" ⟨none, none⟩).1 rfl,
   (c4_write_notfound_or_writes [("x", ⟨1, ⟨[], 0⟩, ⟨2, 3, 0, 0⟩⟩)] "x" "hi"
      ⟨none, none⟩).2 (by simp [rlookup]) rfl rfl⟩

/-- Claim C5: `pty_resize` on an absent identifier fails with the NotFound
error and leaves the registry unchanged; on a present identifier, on syscall
success, it sets the session's pseudo-terminal geometry to the given rows and
columns with both pixel dimensions supplied as zero. -/
theorem c5_resize_notfound_or_resizes (st : Registry) (id : TerminalId)
    (rows cols : Nat) (env : ResizeEnv) :
    (rlookup st id = none →
      pty_resize st id rows cols env = ⟨Except.error "Terminal not found", st⟩) ∧
    (rlookup st id ≠ none → env.resizeErr = none →
      pty_resize st id rows cols env =
        ⟨Except.ok (), rupdate st id (fun i =>
          { i with master := ⟨rows, cols, 0, 0⟩ })⟩) := by
  constructor
  · intro h
    simp [pty_resize, h]
  · intro h hr
    cases hl : rlookup st id with
    | none => exact absurd hl h
    | some inst => simp [pty_resize, hl, hr]

/-- Witness for C5: resize a missing session and a live one. -/
theorem c5_resize_notfound_or_resizes_witness :
    pty_resize [] "x" 30 90 ⟨none⟩ = ⟨Except.error "Terminal not found", []⟩ ∧
    pty_resize [("x", ⟨1, ⟨[], 0⟩, ⟨2, 3, 0, 0⟩⟩)] "x" 30 90 ⟨none⟩ =
      ⟨Except.ok (), rupdate [("x", ⟨1, ⟨[], 0⟩, ⟨2, 3, 0, 0⟩⟩)] "x" (fun i =>
        { i with master := ⟨30, 90, 0, 0⟩ })⟩ :=
  ⟨(c5_resize_notfound_or_resizes [] "x" 30 90 ⟨none⟩).1 rfl,
   (c5_resize_notfound_or_resizes [("x", ⟨1, ⟨[], 0⟩, ⟨2, 3, 0, 0⟩⟩)] "x" 30 90
      ⟨none⟩).2 (by simp [rlookup]) rfl⟩

/-- Claim C6: `pty_kill` returns ok both when the identifier is absent (a
no-op that touches no session) and when it is present; when present, the
entry is removed (a lookup of it afterwards finds nothing), exactly its child's
termination is requested, and every other identifier's binding is untouched.
The outcome of the `child.kill()` request (`env`) never reaches the caller:
the result is ok for every oracle. -/
theorem c6_kill_always_ok (st : Registry) (id : TerminalId) (env : KillEnv) :
    (pty_kill st id env).result = Except.ok () ∧
    (rlookup st id = none →
      (pty_kill st id env).registry = st ∧ (pty_kill st id env).killed = []) ∧
    (∀ inst, rlookup st id = some inst →
      rlookup (pty_kill st id env).registry id = none ∧
      (pty_kill st id env).killed = [inst.child]) ∧
    (∀ id2, id2 ≠ id →
      rlookup (pty_kill st id env).registry id2 = rlookup st id2) := by
  refine ⟨?_, ?_, ?_, ?_⟩
  · cases h : rlookup st id <;> simp [pty_kill, h]
  · intro h
    simp [pty_kill, h]
  · intro inst h
    simp [pty_kill, h, rlookup_rerase_self]
  · intro id2 h2
    cases h : rlookup st id with
    | none => simp [pty_kill, h]
    | some inst => simp [pty_kill, h, rlookup_rerase_ne st id id2 h2]

/-- Witness for C6: kill an absent identifier while another session lives. -/
theorem c6_kill_always_ok_witness :
    (pty_kill [("x", ⟨7, ⟨[], 0⟩, ⟨1, 1, 0, 0⟩⟩)] "y" ⟨some "kill failed"⟩).result =
      Except.ok () ∧
    (pty_kill [("x", ⟨7, ⟨[], 0⟩, ⟨1, 1, 0, 0⟩⟩)] "y" ⟨some "kill failed"⟩).registry =
      [("x", ⟨7, ⟨[], 0⟩, ⟨1, 1, 0, 0⟩⟩)] ∧
    rlookup (pty_kill [("x", ⟨7, ⟨[], 0⟩, ⟨1, 1, 0, 0⟩⟩)] "y"
      ⟨some "kill failed"⟩).registry "x" = some ⟨7, ⟨[], 0⟩, ⟨1, 1, 0, 0⟩⟩ := by
  have h := c6_kill_always_ok [("x", ⟨7, ⟨[], 0⟩, ⟨1, 1, 0, 0⟩⟩)] "y" ⟨some "kill failed"⟩
  exact ⟨h.1, (h.2.1 rfl).1, by
    have hx := h.2.2.2 "x" (by decide)
    simpa [rlookup] using hx⟩

/-- Claim C7: `kill_all` empties the registry, requesting termination of every
registered session's child, so any later `pty_write` or `pty_resize` on a
previously live identifier fails with the NotFound error. -/
theorem c7_kill_all_empties (st : Registry) (id : TerminalId) (data : String)
    (wenv : WriteEnv) (rows cols : Nat) (renv : ResizeEnv) :
    (kill_all st).registry = [] ∧
    (∀ p ∈ st, p.2.child ∈ (kill_all st).killed) ∧
    (pty_write (kill_all st).registry id data wenv).result =
      Except.error "Terminal not found" ∧
    (pty_resize (kill_all st).registry id rows cols renv).result =
      Except.error "Terminal not found" := by
  refine ⟨rfl, ?_, ?_, ?_⟩
  · intro p hp
    simpa [kill_all] using List.mem_map_of_mem (fun q => q.2.child) hp
  · simp [kill_all, pty_write, rlookup]
  · simp [kill_all, pty_resize, rlookup]

/-- Witness for C7: one live session; after `kill_all` its child was killed
and a write to its identifier reports NotFound. -/
theorem c7_kill_all_empties_witness :
    (kill_all [("x", ⟨5, ⟨[], 0⟩, ⟨1, 1, 0, 0⟩⟩)]).registry = [] ∧
    (5 : Nat) ∈ (kill_all [("x", ⟨5, ⟨[], 0⟩, ⟨1, 1, 0, 0⟩⟩)]).killed ∧
    (pty_write (kill_all [("x", ⟨5, ⟨[], 0⟩, ⟨1, 1, 0, 0⟩⟩)]).registry "x" "a"
      ⟨none, none⟩).result = Except.error "Terminal not found" := by
  have h := c7_kill_all_empties [("x", ⟨5, ⟨[], 0⟩, ⟨1, 1, 0, 0⟩⟩)] "x" "a"
    ⟨none, none⟩ 1 1 ⟨none⟩
  exact ⟨h.1, h.2.1 ("x", ⟨5, ⟨[], 0⟩, ⟨1, 1, 0, 0⟩⟩) (by simp), h.2.2.1⟩

/-- Claim C8: shell selection in `pty_spawn`: on non-Windows systems the value
of `SHELL` is used, with `/bin/bash` (a standard POSIX shell path) as the
default when unset; on Windows the value of `COMSPEC` is used, with
`powershell.exe` (a standard command-interpreter name) as the default when
unset; and the command `pty_spawn` hands to `spawn_command` (whenever the
pseudo-terminal allocation step got that far) runs exactly the shell so
selected. -/
theorem c8_shell_selection (v : String) (c s : Option String) (st : Registry)
    (id cwd : String) (rows cols : Nat) (env : SpawnEnv)
    (h : env.openptyErr = none) :
    shell_path false c (some v) = v ∧
    shell_path false c none = "/bin/bash" ∧
    shell_path true (some v) s = v ∧
    shell_path true none s = "powershell.exe" ∧
    (pty_spawn st id cwd rows cols env).spawnedCmd =
      some (shell_path env.isWindows env.comspecVar env.shellVar, cwd) := by
  refine ⟨rfl, rfl, rfl, rfl, ?_⟩
  cases hs : env.spawnErr with
  | some e0 => simp [pty_spawn, h, hs]
  | none =>
    cases hw : env.writerErr with
    | some e0 => simp [pty_spawn, h, hs, hw]
    | none =>
      cases hr : env.readerErr with
      | some e0 => simp [pty_spawn, h, hs, hw, hr]
      | none => simp [pty_spawn, h, hs, hw, hr]

/-- Witness for C8: a POSIX spawn with `SHELL` set to `/bin/zsh`. -/
theorem c8_shell_selection_witness :
    shell_path false none (some "/bin/zsh") = "/bin/zsh" ∧
    shell_path false none none = "/bin/bash" ∧
    shell_path true (some "/bin/zsh") (some "/bin/zsh") = "/bin/zsh" ∧
    shell_path true none (some "/bin/zsh") = "powershell.exe" ∧
    (pty_spawn [] "x" "/tmp" 24 80
      ⟨none, none, none, none, 3, 4, false, none, some "/bin/zsh"⟩).spawnedCmd =
      some (shell_path false none (some "/bin/zsh"), "/tmp") :=
  c8_shell_selection "/bin/zsh" none (some "/bin/zsh") [] "x" "/tmp" 24 80
    ⟨none, none, none, none, 3, 4, false, none, some "/bin/zsh"⟩ rfl

/-- Claim C9: a successful `pty_spawn` on an identifier already present in the
registry overwrites that entry with the fresh session; every other binding is
untouched, no child termination is requested (in particular not the previous
child's), and a new reader loop is started for the identifier.  The source has
no mechanism that could signal an existing reader loop, so the previous
session's loop (a pure function of its own read trace, `sessionReader`) keeps
running unchanged; its kill-request list being empty records that the previous
child also keeps running. -/
theorem c9_spawn_overwrites (st : Registry) (id cwd : String) (rows cols : Nat)
    (env : SpawnEnv) (old : PtyInstance)
    (hold : rlookup st id = some old)
    (hok : (pty_spawn st id cwd rows cols env).result = Except.ok ()) :
    rlookup (pty_spawn st id cwd rows cols env).registry id =
      some ⟨env.childHandle, ⟨[], 0⟩, ⟨rows, cols, 0, 0⟩⟩ ∧
    (∀ id2, id2 ≠ id →
      rlookup (pty_spawn st id cwd rows cols env).registry id2 = rlookup st id2) ∧
    (pty_spawn st id cwd rows cols env).killed = [] ∧
    (pty_spawn st id cwd rows cols env).startedLoop =
      some ⟨dataEventName id, exitEventName id, env.readerHandle⟩ := by
  cases ho : env.openptyErr with
  | some e0 => simp [pty_spawn, ho] at hok
  | none =>
    cases hs : env.spawnErr with
    | some e0 => simp [pty_spawn, ho, hs] at hok
    | none =>
      cases hw : env.writerErr with
      | some e0 => simp [pty_spawn, ho, hs, hw] at hok
      | none =>
        cases hr : env.readerErr with
        | some e0 => simp [pty_spawn, ho, hs, hw, hr] at hok
        | none =>
          refine ⟨?_, ?_, ?_, ?_⟩
          · simp [pty_spawn, ho, hs, hw, hr, rlookup_rinsert_self]
          · intro id2 h2
            simp [pty_spawn, ho, hs, hw, hr,
              rlookup_rinsert_ne st id id2 _ h2]
          · simp [pty_spawn, ho, hs, hw, hr]
          · simp [pty_spawn, ho, hs, hw, hr]

/-- Witness for C9: respawn over a live session "x" next to a session "y". -/
theorem c9_spawn_overwrites_witness :
    rlookup (pty_spawn [("x", ⟨7, ⟨[104], 2⟩, ⟨1, 1, 0, 0⟩⟩),
        ("y", ⟨8, ⟨[], 0⟩, ⟨1, 1, 0, 0⟩⟩)] "x" "/tmp" 24 80
        ⟨none, none, none, none, 9, 10, false, none, none⟩).registry "x" =
      some ⟨9, ⟨[], 0⟩, ⟨24, 80, 0, 0⟩⟩ ∧
    rlookup (pty_spawn [("x", ⟨7, ⟨[104], 2⟩, ⟨1, 1, 0, 0⟩⟩),
        ("y", ⟨8, ⟨[], 0⟩, ⟨1, 1, 0, 0⟩⟩)] "x" "/tmp" 24 80
        ⟨none, none, none, none, 9, 10, false, none, none⟩).registry "y" =
      some ⟨8, ⟨[], 0⟩, ⟨1, 1, 0, 0⟩⟩ ∧
    (pty_spawn [("x", ⟨7, ⟨[104], 2⟩, ⟨1, 1, 0, 0⟩⟩),
        ("y", ⟨8, ⟨[], 0⟩, ⟨1, 1, 0, 0⟩⟩)] "x" "/tmp" 24 80
        ⟨none, none, none, none, 9, 10, false, none, none⟩).killed = [] := by
  have h := c9_spawn_overwrites [("x", ⟨7, ⟨[104], 2⟩, ⟨1, 1, 0, 0⟩⟩),
      ("y", ⟨8, ⟨[], 0⟩, ⟨1, 1, 0, 0⟩⟩)] "x" "/tmp" 24 80
    ⟨none, none, none, none, 9, 10, false, none, none⟩ ⟨7, ⟨[104], 2⟩, ⟨1, 1, 0, 0⟩⟩
    (by simp [rlookup]) rfl
  refine ⟨h.1, ?_, h.2.2.1⟩
  have hy := h.2.1 "y" (by decide)
  simpa [rlookup] using hy

/-- Claim C10: neither `pty_write` nor `pty_resize` ever changes the set of
identifiers registered, whether the call succeeds or fails: the key list of
the registry after the call equals the key list before it. -/
theorem c10_write_resize_preserve_keys (st : Registry) (id : TerminalId)
    (data : String) (wenv : WriteEnv) (rows cols : Nat) (renv : ResizeEnv) :
    rkeys (pty_write st id data wenv).registry = rkeys st ∧
    rkeys (pty_resize st id rows cols renv).registry = rkeys st := by
  constructor
  · cases h : rlookup st id with
    | none => simp [pty_write, h]
    | some inst =>
      cases hw : wenv.writeErr with
      | some e => simp [pty_write, h, hw]
      | none =>
        cases hf : wenv.flushErr with
        | some e => simp [pty_write, h, hw, hf, rkeys_rupdate]
        | none => simp [pty_write, h, hw, hf, rkeys_rupdate]
  · cases h : rlookup st id with
    | none => simp [pty_resize, h]
    | some inst =>
      cases hr : renv.resizeErr with
      | some e => simp [pty_resize, h, hr]
      | none => simp [pty_resize, h, hr, rkeys_rupdate]
